import Mathlib

/-!
Shallow embedding of `src/notebooks/apps/hv_obj.py`.

The script is a straight-line pipeline:
  line 5 : hv.extension('bokeh')
  line 8 : df = dd.read_parquet('../data/nyc_taxi_hours.parq/')[['dropoff_x', 'dropoff_y']].persist()
  line 9 : shaded = datashade(hv.Points(df)).opts(plot=dict(width=800, height=600, bgcolor="black"))
  line 12: doc = hv.renderer('bokeh').server_doc(shaded)
  line 13: doc.title = 'HoloViews Bokeh App'

Pure pieces of the script (the path, the column selection, the opts dict,
the title assignment, the linear control flow) are translated from the
source.  The bodies of the external library operations (read_parquet,
datashade, server_doc) are not in the repository; they are modelled from
the spec where a claim depends on their behaviour, and each such
definition says so in its doc comment.
-/

namespace HvObj

/-- A tabular dataset: named columns together with rows, each row mapping
a column name to its numeric value (coordinates are modelled as integers). -/
structure Table where
  columns : List String
  rows : List (String → Int)

/-- The plot options attached on line 9:
plot=dict(width=800, height=600, bgcolor="black"). -/
structure PlotOpts where
  width : Nat
  height : Nat
  bgcolor : String

/-- The failures the script can propagate (it handles none of them). -/
inductive ScriptError where
  | dataAccess
  | keyError
  | noBackend
deriving DecidableEq

/-- Modelled from the spec: a Rasterized Image is a fixed-resolution
pixel grid holding an aggregated point density per pixel, rendered
against a background color (the datashade operation itself is an external
library, absent from src). -/
structure RasterImage where
  width : Nat
  height : Nat
  bgcolor : String
  counts : Nat → Nat → Nat

/-- A Server Document as produced by the bokeh renderer: the rendered
visual content and a mutable title attribute. -/
structure ServerDoc where
  content : RasterImage
  title : String

/-- State of the holoviews rendering system: which backend extensions
have been loaded so far. -/
structure HVState where
  extensions : List String

/-- Line 5, hv.extension(name): load the named rendering backend. -/
def hvExtension (name : String) (s : HVState) : HVState :=
  { extensions := name :: s.extensions }

/-- Modelled from the spec: the filesystem maps a path to a partitioned
dataset when the path references a valid one, and to nothing when the
path is missing or malformed. -/
structure FS where
  read : String → Option Table

/-- Modelled from the spec: dd.read_parquet reads the dataset at the
given path, and a missing or malformed path fails with a propagated
DataAccessError (the dask library is absent from src). -/
def read_parquet (fs : FS) (path : String) : Except ScriptError Table :=
  match fs.read path with
  | some t => Except.ok t
  | none => Except.error ScriptError.dataAccess

/-- Column selection df[[...]] on line 8: keep exactly the named columns,
leaving the rows untouched; a missing column is a key error. -/
def selectColumns (t : Table) (cols : List String) : Except ScriptError Table :=
  if ∀ c ∈ cols, c ∈ t.columns then
    Except.ok { columns := cols, rows := t.rows }
  else Except.error ScriptError.keyError

/-- persist() on line 8: forces materialization in memory; at the level
of values it returns the same table. -/
def persist (t : Table) : Table := t

/-- hv.Points(df) on line 9: view the table as a collection of 2D points
taken from the dropoff_x and dropoff_y columns. -/
def hvPoints (df : Table) : List (Int × Int) :=
  df.rows.map (fun r => (r "dropoff_x", r "dropoff_y"))

/-- Least element of a list of integers (0 for the empty list). -/
def minList : List Int → Int
  | [] => 0
  | x :: xs => xs.foldl min x

/-- Greatest element of a list of integers (0 for the empty list). -/
def maxList : List Int → Int
  | [] => 0
  | x :: xs => xs.foldl max x

/-- Modelled from the spec: linear binning of one coordinate into n
pixels over the data range from lo to hi; a degenerate range maps
everything to bin 0. -/
def binIndex (lo hi : Int) (n : Nat) (v : Int) : Nat :=
  if hi ≤ lo then 0
  else min (n - 1) (((v - lo) * n / (hi - lo)).toNat)

/-- Modelled from the spec: bin a point into a pixel of the w × h grid,
using the coordinate bounds of the whole point collection. -/
def binPoint (pts : List (Int × Int)) (w h : Nat) (p : Int × Int) : Nat × Nat :=
  (binIndex (minList (pts.map Prod.fst)) (maxList (pts.map Prod.fst)) w p.1,
   binIndex (minList (pts.map Prod.snd)) (maxList (pts.map Prod.snd)) h p.2)

/-- Modelled from the spec: datashade aggregates the density of the point
collection per pixel (binning points into pixels and counting), and the
attached opts fix the canvas width, height and background color. -/
def datashade (pts : List (Int × Int)) (o : PlotOpts) : RasterImage :=
  { width := o.width, height := o.height, bgcolor := o.bgcolor,
    counts := fun i j =>
      (pts.filter (fun p => binPoint pts o.width o.height p = (i, j))).length }

/-- The pixels of the image (within its grid) holding a nonzero density,
i.e. the pixels that are not background. -/
def nonBackground (img : RasterImage) : Finset (Nat × Nat) :=
  (Finset.range img.width ×ˢ Finset.range img.height).filter
    (fun p => img.counts p.1 p.2 ≠ 0)

/-- The hardcoded relative dataset path on line 8. -/
def taxiPath : String := "../data/nyc_taxi_hours.parq/"

/-- The plot options dictionary on line 9. -/
def scriptOpts : PlotOpts := { width := 800, height := 600, bgcolor := "black" }

/-- Line 9: shaded = datashade(hv.Points(df)).opts(plot=dict(width=800,
height=600, bgcolor="black")). -/
def shaded (df : Table) : RasterImage := datashade (hvPoints df) scriptOpts

/-- Modelled from the spec: hv.renderer(backend).server_doc produces a
server document for the visual object when the backend extension has
been loaded, and otherwise the uninitialised-engine failure propagates
(the holoviews renderer is an external library, absent from src). -/
def server_doc (backend : String) (s : HVState) (img : RasterImage) :
    Except ScriptError ServerDoc :=
  if backend ∈ s.extensions then Except.ok { content := img, title := "" }
  else Except.error ScriptError.noBackend

/-- Observable events of one run: filesystem reads, the pipeline steps,
and filesystem writes (which the script never performs). -/
inductive Event where
  | load (path : String)
  | write (path : String)
  | rasterize
  | render
  | setTitle (t : String)
deriving DecidableEq

/-- Recognizes filesystem read events. -/
def Event.isLoad : Event → Bool
  | Event.load _ => true
  | _ => false

/-- Recognizes filesystem write events. -/
def Event.isWrite : Event → Bool
  | Event.write _ => true
  | _ => false

/-- The outcome of one run of the script: its result, the in-memory
table at the end of the run, and the trace of events in execution order. -/
structure RunOutcome where
  result : Except ScriptError ServerDoc
  df : Option Table
  trace : List Event

/-- Line 8 as a whole: read the dataset at the hardcoded path, select
the two columns, persist. -/
def loadStep (fs : FS) : Except ScriptError Table :=
  (read_parquet fs taxiPath).bind
    (fun raw => (selectColumns raw ["dropoff_x", "dropoff_y"]).map persist)

/-- The whole script hv_obj.py, straight-line and single-shot: load the
bokeh extension, read the dataset and select the two columns, persist,
datashade with the opts, render a server document, set its title.  Any
failure propagates and ends the run at once. -/
def runScript (fs : FS) : RunOutcome :=
  let s := hvExtension "bokeh" { extensions := [] }
  match loadStep fs with
  | Except.error e =>
      { result := Except.error e, df := none, trace := [Event.load taxiPath] }
  | Except.ok df =>
    let img := shaded df
    match server_doc "bokeh" s img with
    | Except.error e =>
        { result := Except.error e, df := some df,
          trace := [Event.load taxiPath, Event.rasterize] }
    | Except.ok d =>
        { result := Except.ok { d with title := "HoloViews Bokeh App" },
          df := some df,
          trace := [Event.load taxiPath, Event.rasterize, Event.render,
                    Event.setTitle "HoloViews Bokeh App"] }

/-- The run of the script is exactly: the loading step, followed on
success by datashading, rendering and the title assignment. -/
lemma runScript_eq (fs : FS) :
    runScript fs =
      match loadStep fs with
      | Except.error e =>
          { result := Except.error e, df := none, trace := [Event.load taxiPath] }
      | Except.ok df =>
          { result := Except.ok { content := shaded df, title := "HoloViews Bokeh App" },
            df := some df,
            trace := [Event.load taxiPath, Event.rasterize, Event.render,
                      Event.setTitle "HoloViews Bokeh App"] } := by
  unfold runScript
  cases hl : loadStep fs with
  | error e => rfl
  | ok df => rfl

/-! Concrete fixtures used by the witness theorems. -/

/-- A dataset with the two coordinate columns and no rows. -/
def emptyTaxiTable : Table :=
  { columns := ["dropoff_x", "dropoff_y"], rows := [] }

/-- A dataset with an extra column and two rows. -/
def hourTable : Table :=
  { columns := ["dropoff_x", "dropoff_y", "hour"],
    rows := [fun _ => 1, fun _ => 2] }

/-- A dataset whose two rows carry identical coordinates. -/
def sameTable : Table :=
  { columns := ["dropoff_x", "dropoff_y"],
    rows := [fun _ => 5, fun _ => 5] }

/-- A filesystem holding the empty dataset at the hardcoded path. -/
def fsGood : FS :=
  { read := fun p => if p = taxiPath then some emptyTaxiTable else none }

/-- A filesystem holding the three-column dataset at the hardcoded path. -/
def fsHour : FS :=
  { read := fun p => if p = taxiPath then some hourTable else none }

/-- A filesystem with no dataset at any path. -/
def fsMissing : FS := { read := fun _ => none }

/-- The document the script produces when run against fsGood. -/
def docGood : ServerDoc :=
  { content := shaded emptyTaxiTable, title := "HoloViews Bokeh App" }

/-- C1: after the script completes successfully, the title attribute of
the produced Server Document equals the literal string
"HoloViews Bokeh App". -/
theorem title_eq_holoviews_bokeh_app (fs : FS) (d : ServerDoc)
    (h : (runScript fs).result = Except.ok d) :
    d.title = "HoloViews Bokeh App" := by
  rw [runScript_eq] at h
  cases hl : loadStep fs with
  | error e => rw [hl] at h; simp at h
  | ok t =>
    rw [hl] at h
    injection h with h2
    subst h2
    rfl

/-- C1 witness: the theorem applied to a concrete filesystem holding a
dataset at the hardcoded path. -/
theorem title_eq_holoviews_bokeh_app_witness :
    docGood.title = "HoloViews Bokeh App" :=
  title_eq_holoviews_bokeh_app fsGood docGood rfl

/-- C2: on a source dataset containing the dropoff_x and dropoff_y
columns, the loading-and-column-selection step of line 8 yields a table
whose columns are exactly dropoff_x and dropoff_y and whose row count
equals the source dataset's row count. -/
theorem select_columns_exact (fs : FS) (t : Table)
    (hr : fs.read taxiPath = some t)
    (hx : "dropoff_x" ∈ t.columns) (hy : "dropoff_y" ∈ t.columns) :
    ∃ sel, loadStep fs = Except.ok sel ∧
      sel.columns = ["dropoff_x", "dropoff_y"] ∧
      sel.rows.length = t.rows.length := by
  have hcond : ∀ c ∈ ["dropoff_x", "dropoff_y"], c ∈ t.columns := by
    intro c hc
    rcases List.mem_cons.mp hc with rfl | hc2
    · exact hx
    · rcases List.mem_cons.mp hc2 with rfl | hc3
      · exact hy
      · exact absurd hc3 (List.not_mem_nil c)
  have h1 : read_parquet fs taxiPath = Except.ok t := by
    unfold read_parquet
    rw [hr]
  have h2 : selectColumns t ["dropoff_x", "dropoff_y"] =
      Except.ok { columns := ["dropoff_x", "dropoff_y"], rows := t.rows } := by
    unfold selectColumns
    rw [if_pos hcond]
  refine ⟨{ columns := ["dropoff_x", "dropoff_y"], rows := t.rows }, ?_, rfl, rfl⟩
  unfold loadStep
  rw [h1]
  show Except.map persist (selectColumns t ["dropoff_x", "dropoff_y"]) =
    Except.ok { columns := ["dropoff_x", "dropoff_y"], rows := t.rows }
  rw [h2]
  rfl

/-- C2 witness: the theorem applied to a concrete three-column dataset
with two rows. -/
theorem select_columns_exact_witness :
    ∃ sel, loadStep fsHour = Except.ok sel ∧
      sel.columns = ["dropoff_x", "dropoff_y"] ∧
      sel.rows.length = hourTable.rows.length :=
  select_columns_exact fsHour hourTable rfl
    (by simp [hourTable]) (by simp [hourTable])

/-- C3: the rasterization step is configured with canvas width 800,
height 600 and background color black: for every input dataset the
shaded image carries exactly those dimensions and background. -/
theorem shaded_config (df : Table) :
    (shaded df).width = 800 ∧ (shaded df).height = 600 ∧
      (shaded df).bgcolor = "black" :=
  ⟨rfl, rfl, rfl⟩

/-- C4: on a missing or malformed dataset path the run fails with a
propagated DataAccessError, no Server Document is produced, and the
render step never executes. -/
theorem missing_path_fails (fs : FS) (h : fs.read taxiPath = none) :
    (runScript fs).result = Except.error ScriptError.dataAccess ∧
      (∀ d, (runScript fs).result ≠ Except.ok d) ∧
      Event.render ∉ (runScript fs).trace := by
  have hl : loadStep fs = Except.error ScriptError.dataAccess := by
    unfold loadStep read_parquet
    rw [h]
    rfl
  rw [runScript_eq, hl]
  refine ⟨rfl, ?_, ?_⟩
  · intro d hd
    simp at hd
  · simp

/-- C4 witness: the theorem applied to the filesystem holding no dataset. -/
theorem missing_path_fails_witness :
    (runScript fsMissing).result = Except.error ScriptError.dataAccess ∧
      (∀ d, (runScript fsMissing).result ≠ Except.ok d) ∧
      Event.render ∉ (runScript fsMissing).trace :=
  missing_path_fails fsMissing rfl

/-- C5: every run that completes successfully executed loading,
rasterization, rendering and the title assignment exactly once, in that
order, the title being set only after the document was rendered. -/
theorem run_trace_linear (fs : FS) (d : ServerDoc)
    (h : (runScript fs).result = Except.ok d) :
    (runScript fs).trace = [Event.load taxiPath, Event.rasterize,
      Event.render, Event.setTitle "HoloViews Bokeh App"] := by
  rw [runScript_eq] at h ⊢
  cases hl : loadStep fs with
  | error e => rw [hl] at h; simp at h
  | ok t => rfl

/-- C5 witness: the theorem applied to a concrete successful run. -/
theorem run_trace_linear_witness :
    (runScript fsGood).trace = [Event.load taxiPath, Event.rasterize,
      Event.render, Event.setTitle "HoloViews Bokeh App"] :=
  run_trace_linear fsGood docGood rfl

/-- C8: the materialized table is never mutated after loading: the table
held at the end of any run is exactly the one the loading step of line 8
produced; rasterization, rendering and the title assignment leave it
unchanged. -/
theorem df_never_mutated (fs : FS) :
    (runScript fs).df = (loadStep fs).toOption := by
  rw [runScript_eq]
  cases hl : loadStep fs with
  | error e => rfl
  | ok t => rfl

/-- C9: in every run the only filesystem read is the single load of the
hardcoded relative path, and no filesystem write ever happens. -/
theorem only_taxi_path_read (fs : FS) :
    (runScript fs).trace.filter Event.isLoad = [Event.load taxiPath] ∧
      (runScript fs).trace.filter Event.isWrite = [] := by
  rw [runScript_eq]
  cases hl : loadStep fs with
  | error e => exact ⟨rfl, rfl⟩
  | ok t => exact ⟨rfl, rfl⟩

/-- C6: rasterizing an empty dataset yields an all-background image of
the configured 800 × 600 dimensions: every pixel holds zero density and
no pixel of the grid is non-background. -/
theorem empty_raster_all_background (df : Table) (h : df.rows = []) :
    (shaded df).width = 800 ∧ (shaded df).height = 600 ∧
      (∀ i j, (shaded df).counts i j = 0) ∧
      nonBackground (shaded df) = ∅ := by
  have hp : hvPoints df = [] := by
    unfold hvPoints
    rw [h]
    rfl
  have hc : ∀ i j, (shaded df).counts i j = 0 := by
    intro i j
    show ((hvPoints df).filter _).length = 0
    rw [hp]
    rfl
  refine ⟨rfl, rfl, hc, ?_⟩
  unfold nonBackground
  rw [Finset.filter_eq_empty_iff]
  intro p _
  simp [hc p.1 p.2]

/-- C6 witness: the theorem applied to the concrete empty dataset. -/
theorem empty_raster_all_background_witness :
    (shaded emptyTaxiTable).width = 800 ∧ (shaded emptyTaxiTable).height = 600 ∧
      (∀ i j, (shaded emptyTaxiTable).counts i j = 0) ∧
      nonBackground (shaded emptyTaxiTable) = ∅ :=
  empty_raster_all_background emptyTaxiTable rfl

/-- Folding min over a list whose elements all equal c, starting from c,
gives c. -/
lemma foldl_min_const (c : Int) :
    ∀ l : List Int, (∀ a ∈ l, a = c) → l.foldl min c = c
  | [], _ => rfl
  | a :: l, h => by
    have ha : a = c := h a (List.mem_cons_self a l)
    rw [List.foldl_cons, ha, min_self]
    exact foldl_min_const c l (fun b hb => h b (List.mem_cons_of_mem a hb))

/-- Folding max over a list whose elements all equal c, starting from c,
gives c. -/
lemma foldl_max_const (c : Int) :
    ∀ l : List Int, (∀ a ∈ l, a = c) → l.foldl max c = c
  | [], _ => rfl
  | a :: l, h => by
    have ha : a = c := h a (List.mem_cons_self a l)
    rw [List.foldl_cons, ha, max_self]
    exact foldl_max_const c l (fun b hb => h b (List.mem_cons_of_mem a hb))

/-- The least element of a nonempty all-c list is c. -/
lemma minList_const (c : Int) (l : List Int) (hne : l ≠ [])
    (h : ∀ a ∈ l, a = c) : minList l = c := by
  cases l with
  | nil => exact absurd rfl hne
  | cons a l =>
    have ha : a = c := h a (List.mem_cons_self a l)
    show l.foldl min a = c
    rw [ha]
    exact foldl_min_const c l (fun b hb => h b (List.mem_cons_of_mem a hb))

/-- The greatest element of a nonempty all-c list is c. -/
lemma maxList_const (c : Int) (l : List Int) (hne : l ≠ [])
    (h : ∀ a ∈ l, a = c) : maxList l = c := by
  cases l with
  | nil => exact absurd rfl hne
  | cons a l =>
    have ha : a = c := h a (List.mem_cons_self a l)
    show l.foldl max a = c
    rw [ha]
    exact foldl_max_const c l (fun b hb => h b (List.mem_cons_of_mem a hb))

/-- C7: rasterizing a dataset in which every row carries the same
dropoff coordinates yields an image with exactly one non-background
pixel. -/
theorem identical_points_one_pixel (df : Table) (x y : Int)
    (hne : df.rows ≠ [])
    (hall : ∀ r ∈ df.rows, r "dropoff_x" = x ∧ r "dropoff_y" = y) :
    (nonBackground (shaded df)).card = 1 := by
  have hpts : ∀ p ∈ hvPoints df, p = (x, y) := by
    intro p hp
    simp only [hvPoints, List.mem_map] at hp
    obtain ⟨r, hr, rfl⟩ := hp
    rw [(hall r hr).1, (hall r hr).2]
  have hpne : hvPoints df ≠ [] := by
    simp only [hvPoints, Ne, List.map_eq_nil_iff]
    exact hne
  have hfne : (hvPoints df).map Prod.fst ≠ [] := by
    simp only [Ne, List.map_eq_nil_iff]
    exact hpne
  have hsne : (hvPoints df).map Prod.snd ≠ [] := by
    simp only [Ne, List.map_eq_nil_iff]
    exact hpne
  have hminx : minList ((hvPoints df).map Prod.fst) = x := by
    refine minList_const x _ hfne ?_
    intro a ha
    obtain ⟨p, hp, rfl⟩ := List.mem_map.mp ha
    rw [hpts p hp]
  have hmaxx : maxList ((hvPoints df).map Prod.fst) = x := by
    refine maxList_const x _ hfne ?_
    intro a ha
    obtain ⟨p, hp, rfl⟩ := List.mem_map.mp ha
    rw [hpts p hp]
  have hminy : minList ((hvPoints df).map Prod.snd) = y := by
    refine minList_const y _ hsne ?_
    intro a ha
    obtain ⟨p, hp, rfl⟩ := List.mem_map.mp ha
    rw [hpts p hp]
  have hmaxy : maxList ((hvPoints df).map Prod.snd) = y := by
    refine maxList_const y _ hsne ?_
    intro a ha
    obtain ⟨p, hp, rfl⟩ := List.mem_map.mp ha
    rw [hpts p hp]
  have hbin : ∀ p ∈ hvPoints df,
      binPoint (hvPoints df) 800 600 p = ((0 : Nat), (0 : Nat)) := by
    intro p hp
    unfold binPoint binIndex
    rw [hminx, hmaxx, hminy, hmaxy]
    simp
  have hcounts : ∀ i j, (shaded df).counts i j =
      ((hvPoints df).filter
        (fun p => binPoint (hvPoints df) 800 600 p = (i, j))).length :=
    fun i j => rfl
  have hzero : ∀ q : Nat × Nat, q ≠ ((0 : Nat), (0 : Nat)) →
      (shaded df).counts q.1 q.2 = 0 := by
    intro q hq
    rw [hcounts, List.length_eq_zero, List.filter_eq_nil_iff]
    intro p hp
    simp only [decide_eq_true_eq]
    rw [hbin p hp]
    intro hcontra
    exact hq (Prod.mk.eta.symm.trans hcontra.symm)
  have hpos : (shaded df).counts 0 0 ≠ 0 := by
    rw [hcounts]
    have hfull : (hvPoints df).filter
        (fun p => binPoint (hvPoints df) 800 600 p = ((0 : Nat), (0 : Nat))) =
        hvPoints df := by
      refine List.filter_eq_self.mpr ?_
      intro p hp
      simp only [decide_eq_true_eq]
      exact hbin p hp
    rw [hfull]
    intro hc
    exact hpne (List.length_eq_zero.mp hc)
  have hset : nonBackground (shaded df) = {((0 : Nat), (0 : Nat))} := by
    apply Finset.ext
    intro q
    simp only [nonBackground, Finset.mem_filter, Finset.mem_product,
      Finset.mem_range, Finset.mem_singleton]
    constructor
    · rintro ⟨-, hq⟩
      by_contra hne0
      exact hq (hzero q hne0)
    · rintro rfl
      refine ⟨⟨?_, ?_⟩, hpos⟩
      · show (0 : Nat) < (shaded df).width
        rw [show (shaded df).width = 800 from rfl]
        norm_num
      · show (0 : Nat) < (shaded df).height
        rw [show (shaded df).height = 600 from rfl]
        norm_num
  rw [hset]
  exact Finset.card_singleton _

/-- C7 witness: the theorem applied to the concrete two-row dataset
whose rows carry identical coordinates. -/
theorem identical_points_one_pixel_witness :
    (nonBackground (shaded sameTable)).card = 1 := by
  refine identical_points_one_pixel sameTable 5 5 ?_ ?_
  · intro hc
    simp [sameTable] at hc
  · intro r hr
    rcases List.mem_cons.mp hr with rfl | hr2
    · exact ⟨rfl, rfl⟩
    · rcases List.mem_cons.mp hr2 with rfl | hr3
      · exact ⟨rfl, rfl⟩
      · exact absurd hr3 (List.not_mem_nil r)

/-- A failing loading step can only fail with a data access error or a
key error, never with the uninitialised-backend error. -/
lemma loadStep_error_cases (fs : FS) (e : ScriptError)
    (h : loadStep fs = Except.error e) :
    e = ScriptError.dataAccess ∨ e = ScriptError.keyError := by
  unfold loadStep read_parquet at h
  cases hf : fs.read taxiPath with
  | none =>
    rw [hf] at h
    simp only [Except.bind] at h
    injection h with h2
    exact Or.inl h2.symm
  | some t =>
    rw [hf] at h
    simp only [Except.bind] at h
    unfold selectColumns at h
    split at h
    · simp [Except.map] at h
    · simp [Except.map] at h
      exact Or.inr h.symm

/-- C10: the bokeh extension of line 5 precedes any use of the bokeh
renderer, so the renderer always succeeds on the loaded backend and no
run can ever fail with the uninitialised-rendering-engine error. -/
theorem bokeh_backend_ready (fs : FS) (img : RasterImage) :
    server_doc "bokeh" (hvExtension "bokeh" { extensions := [] }) img =
      Except.ok { content := img, title := "" } ∧
    (runScript fs).result ≠ Except.error ScriptError.noBackend := by
  refine ⟨rfl, ?_⟩
  rw [runScript_eq]
  cases hl : loadStep fs with
  | ok t => simp
  | error e =>
    rcases loadStep_error_cases fs e hl with rfl | rfl
    · simp
    · simp

end HvObj
